import Mathlib

/-!
Shallow embedding of the attendance and payroll engine implemented in
`src/routes/employees.js` of the billing_apis repository.

Timestamps are modelled as integer milliseconds since local midnight of
the current day; JavaScript floating-point arithmetic on derived
quantities is modelled exactly over the rationals.  Fallible route
handlers become functions into `Except Err`; an error result corresponds
to the route returning before any mutation is saved, so the stored day
record is unchanged on every error path.
-/

namespace Billing

/-- JavaScript `Math.round`: round half toward positive infinity. -/
def jsRound (q : ℚ) : ℤ := ⌊q + 1/2⌋

/-- Rounding to two decimal places, as in `Math.round(x * 100) / 100`. -/
def round2 (q : ℚ) : ℚ := (jsRound (q * 100) : ℚ) / 100

/-- Attendance status values stored on a day record. -/
inductive Status
  | present
  | late
  | overtime
  | earlyLeave
  | halfDay
  | absent
deriving DecidableEq

/-- Valid break types accepted by `POST /:id/break/start`. -/
inductive BreakType
  | lunch
  | tea
  | dinner
  | other
deriving DecidableEq

/-- One break interval of a day record (`breaks` array element).
`endTime` and `duration` are absent while the break is still open. -/
structure BreakItem where
  btype : BreakType
  startTime : ℤ
  endTime : Option ℤ
  duration : Option ℤ
deriving DecidableEq

/-- The attendance record of one employee for the current calendar day,
with the fields the attendance routes read and write.  Geo-location
fields are purely descriptive in the source and are omitted. -/
structure AttendanceDay where
  loginTime : Option ℤ
  logoutTime : Option ℤ
  isPresent : Bool
  status : Status
  lateMinutes : ℤ
  earlyLeaveMinutes : Option ℤ
  workLocation : String
  breaks : List BreakItem
  totalBreakTime : ℤ
  hoursWorked : Option ℚ
  overtimeHours : Option ℚ
deriving DecidableEq

/-- Error kinds, one per distinct guard failure message in the
attendance routes.  `noAttendanceRecord` is the message
`No attendance record found for today` of `POST /:id/break/end`, kept
distinct from `noOngoingBreak` (`No ongoing break found`). -/
inductive Err
  | inactiveEmployee
  | alreadyCheckedIn
  | notCheckedIn
  | alreadyCheckedOut
  | breakInProgress
  | noOngoingBreak
  | noAttendanceRecord
deriving DecidableEq

/-- Per-request context: the wall-clock time of the call (ms since local
midnight), the employee's shift timing (absent when unset), the active
flag and the requested work location. -/
structure Ctx where
  nowMs : ℤ
  shiftStart : Option (ℤ × ℤ)
  shiftEnd : Option (ℤ × ℤ)
  isActive : Bool
  workLocation : String

/-- Milliseconds since midnight of a clock time given as (hour, minute). -/
def hmToMs (p : ℤ × ℤ) : ℤ := (p.1 * 60 + p.2) * 60000

/-- Shift start in ms, with the source default `'09:00'` when unset. -/
def shiftStartMs (ctx : Ctx) : ℤ := hmToMs (ctx.shiftStart.getD (9, 0))

/-- Shift end in ms, with the source default `'18:00'` when unset. -/
def shiftEndMs (ctx : Ctx) : ℤ := hmToMs (ctx.shiftEnd.getD (18, 0))

/-- The fresh attendance data built by check-in.  `Object.assign` on an
existing record overwrites exactly the fields listed in
`attendanceData`, so `logoutTime`, `earlyLeaveMinutes`, `hoursWorked`
and `overtimeHours` of a previous record (if any) are retained. -/
def freshCheckin (ctx : Ctx) (prev : Option AttendanceDay) : AttendanceDay :=
  let lateMinutes : ℤ := max 0 ⌊((ctx.nowMs - shiftStartMs ctx : ℤ) : ℚ) / 60000⌋
  { loginTime := some ctx.nowMs
    logoutTime := prev.bind (·.logoutTime)
    isPresent := true
    status := if lateMinutes > 15 then Status.late else Status.present
    lateMinutes := lateMinutes
    earlyLeaveMinutes := prev.bind (·.earlyLeaveMinutes)
    workLocation := ctx.workLocation
    breaks := []
    totalBreakTime := 0
    hoursWorked := prev.bind (·.hoursWorked)
    overtimeHours := prev.bind (·.overtimeHours) }

/-- `POST /:id/checkin`.  Guards: inactive employee, then an existing
record for today that already has a `loginTime`. -/
def checkin (ctx : Ctx) (s : Option AttendanceDay) : Except Err AttendanceDay :=
  if ctx.isActive then
    match s with
    | some att =>
        if att.loginTime.isSome then .error .alreadyCheckedIn
        else .ok (freshCheckin ctx (some att))
    | none => .ok (freshCheckin ctx none)
  else .error .inactiveEmployee

/-- Closes the first open break of the list at time `nowMs`, setting
`endTime` and `duration = Math.round((end - start) / 60000)`. -/
def closeFirstOpen (nowMs : ℤ) : List BreakItem → List BreakItem
  | [] => []
  | b :: bs =>
      if b.endTime.isNone then
        { b with endTime := some nowMs
                 duration := some (jsRound (((nowMs - b.startTime : ℤ) : ℚ) / 60000)) } :: bs
      else b :: closeFirstOpen nowMs bs

/-- The reduce at the source recomputing `totalBreakTime`:
`breaks.reduce((total, b) => total + (b.duration || 0), 0)`. -/
def sumDurations (l : List BreakItem) : ℤ :=
  l.foldl (fun t b => t + b.duration.getD 0) 0

/-- Sum of `duration` over the closed breaks only (the spec's
`totalBreakMinutes` invariant reads this quantity). -/
def closedSum (l : List BreakItem) : ℤ :=
  ((l.filter fun b => b.endTime.isSome).map fun b => b.duration.getD 0).sum

/-- Well-formedness of a break list: an open break has no duration yet
(the source only ever sets `duration` together with `endTime`). -/
def breaksWF (l : List BreakItem) : Prop :=
  ∀ b ∈ l, b.endTime = none → b.duration = none

instance breaksWFDecidable (l : List BreakItem) : Decidable (breaksWF l) := by
  unfold breaksWF; infer_instance

/-- Success path of `POST /:id/checkout` for a record with
`loginTime = some login` and no `logoutTime`. -/
def checkoutCore (ctx : Ctx) (att : AttendanceDay) (login : ℤ) : AttendanceDay :=
  let hasOpen := (att.breaks.find? fun b => b.endTime.isNone).isSome
  let newBreaks := if hasOpen then closeFirstOpen ctx.nowMs att.breaks else att.breaks
  let newTotal := if hasOpen then sumDurations newBreaks else att.totalBreakTime
  let totalMinutesWorked : ℚ := ((ctx.nowMs - login : ℤ) : ℚ) / 60000
  let actualMinutesWorked : ℚ := totalMinutesWorked - (newTotal : ℚ)
  let hoursWorked : ℚ := actualMinutesWorked / 60
  let sStart := ctx.shiftStart.getD (9, 0)
  let sEnd := ctx.shiftEnd.getD (18, 0)
  let standardShiftHours : ℚ :=
    (((sEnd.1 * 60 + sEnd.2) - (sStart.1 * 60 + sStart.2) : ℤ) : ℚ) / 60
  let overtimeHours : ℚ := max 0 (hoursWorked - standardShiftHours)
  let earlyLeaveMinutes : ℤ := max 0 ⌊((shiftEndMs ctx - ctx.nowMs : ℤ) : ℚ) / 60000⌋
  { att with
    breaks := newBreaks
    totalBreakTime := newTotal
    logoutTime := some ctx.nowMs
    hoursWorked := some (round2 hoursWorked)
    overtimeHours := some (round2 overtimeHours)
    status :=
      if overtimeHours > 1/2 then Status.overtime
      else if earlyLeaveMinutes > 30 then Status.earlyLeave
      else if hoursWorked < 4 then Status.halfDay
      else att.status
    earlyLeaveMinutes :=
      if overtimeHours > 1/2 then att.earlyLeaveMinutes
      else if earlyLeaveMinutes > 30 then some earlyLeaveMinutes
      else att.earlyLeaveMinutes }

/-- `POST /:id/checkout`.  Guards: missing record or missing
`loginTime`, then an already set `logoutTime`.  The handler has no
`isActive` guard. -/
def checkout (ctx : Ctx) (s : Option AttendanceDay) : Except Err AttendanceDay :=
  match s with
  | none => .error .notCheckedIn
  | some att =>
      match att.loginTime with
      | none => .error .notCheckedIn
      | some login =>
          if att.logoutTime.isSome then .error .alreadyCheckedOut
          else .ok (checkoutCore ctx att login)

/-- `POST /:id/break/start`.  Guards: not checked in, already checked
out, a break already open.  The handler has no `isActive` guard. -/
def breakStart (ctx : Ctx) (ty : BreakType) (s : Option AttendanceDay) :
    Except Err AttendanceDay :=
  match s with
  | none => .error .notCheckedIn
  | some att =>
      if att.loginTime.isNone then .error .notCheckedIn
      else if att.logoutTime.isSome then .error .alreadyCheckedOut
      else if (att.breaks.find? fun b => b.endTime.isNone).isSome then
        .error .breakInProgress
      else .ok { att with breaks := att.breaks ++ [⟨ty, ctx.nowMs, none, none⟩] }

/-- `POST /:id/break/end`.  Guards: no record for today at all, then no
open break.  The handler has no `isActive` guard and does not look at
`loginTime` or `logoutTime`. -/
def breakEnd (ctx : Ctx) (s : Option AttendanceDay) : Except Err AttendanceDay :=
  match s with
  | none => .error .noAttendanceRecord
  | some att =>
      if (att.breaks.find? fun b => b.endTime.isNone).isSome then
        let newBreaks := closeFirstOpen ctx.nowMs att.breaks
        .ok { att with breaks := newBreaks, totalBreakTime := sumDurations newBreaks }
      else .error .noOngoingBreak

/-- State after a route call: the new record is saved only on success;
every error path returns before mutating, leaving the state unchanged. -/
def applyOp (r : Except Err AttendanceDay) (s : Option AttendanceDay) :
    Option AttendanceDay :=
  match r with
  | .ok a => some a
  | .error _ => s

/-- The saved day record of a successful call, `none` on error. -/
def okDay : Except Err AttendanceDay → Option AttendanceDay
  | .ok a => some a
  | .error _ => none

/-- Count of records with `isPresent` set, over a list of day records
of one employee inside a date window. -/
def presentDaysOf (l : List AttendanceDay) : ℕ :=
  (l.filter fun a => a.isPresent).length

/-- Count of records without `isPresent`. -/
def absentDaysOf (l : List AttendanceDay) : ℕ :=
  (l.filter fun a => !a.isPresent).length

/-- Sum of `hoursWorked || 0` over the records. -/
def totalHoursOf (l : List AttendanceDay) : ℚ :=
  l.foldl (fun s a => s + a.hoursWorked.getD 0) 0

/-- Count of records whose status is `late`. -/
def lateCountOf (l : List AttendanceDay) : ℕ :=
  (l.filter fun a => a.status = Status.late).length

/-- Count of records whose status is `early-leave`. -/
def earlyLeaveCountOf (l : List AttendanceDay) : ℕ :=
  (l.filter fun a => a.status = Status.earlyLeave).length

/-- Attendance percentage of `GET /reports/comprehensive`:
`workingDays > 0 ? Math.round(presentDays / workingDays * 100) : 0`
with `workingDays = presentDays + absentDays`. -/
def attendancePercentageOf (l : List AttendanceDay) : ℤ :=
  let p := presentDaysOf l
  let w := p + absentDaysOf l
  if 0 < w then jsRound ((p : ℚ) / (w : ℚ) * 100) else 0

/-- Punctuality score of `GET /reports/comprehensive`:
`presentDays > 0 ? Math.round((presentDays - lateCount - earlyLeaveCount) / presentDays * 100) : 0`. -/
def punctualityScoreOf (l : List AttendanceDay) : ℤ :=
  let p := presentDaysOf l
  if 0 < p then
    jsRound ((((p : ℤ) - lateCountOf l - earlyLeaveCountOf l : ℤ) : ℚ) / (p : ℚ) * 100)
  else 0

/-- Average hours of the custom-date-range branch of
`GET /:id/attendance`:
`presentDays > 0 ? Math.round((totalHours / presentDays) * 100) / 100 : 0`. -/
def averageHoursOf (l : List AttendanceDay) : ℚ :=
  let p := presentDaysOf l
  if 0 < p then round2 (totalHoursOf l / (p : ℚ)) else 0

/-- The fields of `calculateSalary`'s result that the payslip route
reads.  `none` models an absent field; a JavaScript `x || y` fallback
also treats a present `0` as falsy, see `jsOrQ`.  The NaN produced by
the source when base and basePay are both absent is outside the model. -/
structure SalaryData where
  baseSalary : Option ℚ
  basePay : Option ℚ
  grossSalary : Option ℚ
  overtimePay : Option ℚ

/-- JavaScript `a || b` on an optional number: `b` when `a` is absent
or zero. -/
def jsOrQ (a : Option ℚ) (b : ℚ) : ℚ :=
  match a with
  | some x => if x = 0 then b else x
  | none => b

/-- The payslip assembled by `GET /:id/salary/:month/:year`. -/
structure Payslip where
  basicSalary : ℚ
  overtimePay : ℚ
  allowTransport : ℚ
  allowMeal : ℚ
  allowMobile : ℚ
  allowPerformance : ℚ
  totalAllowances : ℚ
  pf : ℚ
  esi : ℚ
  tax : ℚ
  advance : ℚ
  totalDeductions : ℚ
  grossEarnings : ℚ
  netSalary : ℚ
deriving DecidableEq

/-- Payslip computation of `GET /:id/salary/:month/:year`, given the
`calculateSalary` output, the monthly `attendancePercentage` and the
employee's configured `salary.deductions`. -/
def buildPayslip (sd : SalaryData) (attendancePct : ℤ) (salaryDeductions : Option ℚ) :
    Payslip :=
  let performance : ℚ := if attendancePct ≥ 95 then 2000 else 0
  let base : ℚ := jsOrQ sd.baseSalary (jsOrQ sd.basePay 0)
  let pf : ℚ := (jsRound (base * (12/100)) : ℚ)
  let esi : ℚ := (jsRound (base * (175/10000)) : ℚ)
  let advance : ℚ := jsOrQ salaryDeductions 0
  let totalAllowances : ℚ := ([1000, 500, 300, performance] : List ℚ).foldl (· + ·) 0
  let totalDeductions : ℚ := ([pf, esi, 0, advance] : List ℚ).foldl (· + ·) 0
  let gross : ℚ := jsOrQ sd.grossSalary 0
  { basicSalary := base
    overtimePay := jsOrQ sd.overtimePay 0
    allowTransport := 1000
    allowMeal := 500
    allowMobile := 300
    allowPerformance := performance
    totalAllowances := totalAllowances
    pf := pf
    esi := esi
    tax := 0
    advance := advance
    totalDeductions := totalDeductions
    grossEarnings := gross + totalAllowances
    netSalary := gross + totalAllowances - totalDeductions }

/-- Per-employee metrics fed to the two top-performer rankings. -/
structure EmpMetric where
  attendancePercentage : ℚ
  punctualityScore : ℚ
  totalHours : ℚ
deriving DecidableEq

/-- Dashboard performance score of `GET /stats/attendance`:
`Math.round((att * 0.7 + punct * 0.3) * 100) / 100`. -/
def dashScore (m : EmpMetric) : ℚ :=
  round2 (m.attendancePercentage * (7/10) + m.punctualityScore * (3/10))

/-- Report performance score of `GET /reports/comprehensive`:
`Math.round((att * 0.4 + punct * 0.3 + min(totalHours / 160, 1) * 100 * 0.3) * 100) / 100`. -/
def reportScore (m : EmpMetric) : ℚ :=
  round2 (m.attendancePercentage * (4/10) + m.punctualityScore * (3/10) +
    min (m.totalHours / 160) 1 * 100 * (3/10))

/-- Descending comparison on `attendancePercentage`, the comparator of
the dashboard sort `(a, b) => b.attendancePercentage - a.attendancePercentage`. -/
def byAttendanceDesc (a b : EmpMetric) : Prop :=
  b.attendancePercentage ≤ a.attendancePercentage

instance : DecidableRel byAttendanceDesc := fun a b =>
  inferInstanceAs (Decidable (b.attendancePercentage ≤ a.attendancePercentage))

instance : IsTotal EmpMetric byAttendanceDesc :=
  ⟨fun a b => (le_total b.attendancePercentage a.attendancePercentage).imp id id⟩

instance : IsTrans EmpMetric byAttendanceDesc :=
  ⟨fun _ _ _ hab hbc => le_trans hbc hab⟩

/-- Descending comparison on an annotated score, the comparator of the
report sort `(a, b) => b.performanceScore - a.performanceScore`. -/
def byScoreDesc (a b : EmpMetric × ℚ) : Prop := b.2 ≤ a.2

instance : DecidableRel byScoreDesc := fun a b =>
  inferInstanceAs (Decidable (b.2 ≤ a.2))

instance : IsTotal (EmpMetric × ℚ) byScoreDesc :=
  ⟨fun a b => (le_total b.2 a.2).imp id id⟩

instance : IsTrans (EmpMetric × ℚ) byScoreDesc :=
  ⟨fun _ _ _ hab hbc => le_trans hbc hab⟩

/-- Dashboard top performers: the metrics sorted descending by
`attendancePercentage`, the first five taken, each annotated with its
`dashScore`.  The score is computed on the already-sorted slice and is
not the sort key. -/
def dashboardTop (ms : List EmpMetric) : List (EmpMetric × ℚ) :=
  ((List.insertionSort byAttendanceDesc ms).take 5).map fun m => (m, dashScore m)

/-- Report employee details annotated with their `reportScore`. -/
def reportScored (ms : List EmpMetric) : List (EmpMetric × ℚ) :=
  ms.map fun m => (m, reportScore m)

/-- Report top performers: details sorted descending by the annotated
`performanceScore`, the first ten taken. -/
def reportTop (ms : List EmpMetric) : List (EmpMetric × ℚ) :=
  (List.insertionSort byScoreDesc (reportScored ms)).take 10

/-- The invariant of claim C3, packaged for a route result: whenever the
call succeeds, the stored `totalBreakTime` of the saved record is the sum
of its closed breaks' durations. -/
def invariantAfter (x : Except Err AttendanceDay) : Prop :=
  ∀ r, x = .ok r → r.totalBreakTime = closedSum r.breaks

theorem foldl_add_durations (t : ℤ) (l : List BreakItem) :
    l.foldl (fun t b => t + b.duration.getD 0) t =
      t + (l.map fun b => b.duration.getD 0).sum := by
  induction l generalizing t with
  | nil => simp
  | cons b bs ih => simp [ih, add_assoc]

theorem sumDurations_eq_closedSum (l : List BreakItem) (h : breaksWF l) :
    sumDurations l = closedSum l := by
  unfold sumDurations
  rw [foldl_add_durations, zero_add]
  induction l with
  | nil => simp [closedSum]
  | cons b bs ih =>
    have hbs : breaksWF bs := fun x hx => h x (List.mem_cons_of_mem _ hx)
    by_cases hb : b.endTime.isSome
    · rw [List.map_cons, List.sum_cons, ih hbs]
      simp [closedSum, List.filter_cons, hb]
    · have hbe : b.endTime = none := Option.not_isSome_iff_eq_none.mp hb
      have hd : b.duration = none := h b (List.mem_cons_self _ _) hbe
      rw [List.map_cons, List.sum_cons, ih hbs]
      simp [closedSum, List.filter_cons, hb, hd]

theorem breaksWF_closeFirstOpen (now : ℤ) (l : List BreakItem) (h : breaksWF l) :
    breaksWF (closeFirstOpen now l) := by
  induction l with
  | nil => simpa [closeFirstOpen] using h
  | cons b bs ih =>
    intro x hx hxe
    by_cases hb : b.endTime.isNone
    · simp only [closeFirstOpen, if_pos hb, List.mem_cons] at hx
      rcases hx with hx | hx
      · subst hx; simp at hxe
      · exact h x (List.mem_cons_of_mem _ hx) hxe
    · simp only [closeFirstOpen, if_neg hb, List.mem_cons] at hx
      rcases hx with hx | hx
      · subst hx; exact h x (List.mem_cons_self _ _) hxe
      · exact ih (fun y hy => h y (List.mem_cons_of_mem _ hy)) x hx hxe

theorem closeFirstOpen_of_no_open (now : ℤ) (l : List BreakItem)
    (h : (l.find? fun b => b.endTime.isNone) = none) :
    closeFirstOpen now l = l := by
  rw [List.find?_eq_none] at h
  induction l with
  | nil => rfl
  | cons b bs ih =>
    have hb : ¬ b.endTime.isNone = true := h b (List.mem_cons_self _ _)
    simp only [closeFirstOpen, if_neg hb]
    rw [ih (fun x hx => h x (List.mem_cons_of_mem _ hx))]

theorem closedSum_append_open (l : List BreakItem) (b : BreakItem)
    (hb : b.endTime = none) : closedSum (l ++ [b]) = closedSum l := by
  simp [closedSum, List.filter_append, hb]

theorem checkoutCore_totalBreak (ctx : Ctx) (att : AttendanceDay) (login : ℤ)
    (hWF : breaksWF att.breaks) (hTot : att.totalBreakTime = closedSum att.breaks) :
    (checkoutCore ctx att login).totalBreakTime =
      closedSum (checkoutCore ctx att login).breaks := by
  by_cases hOpen : (att.breaks.find? fun b => b.endTime.isNone).isSome
  · simp only [checkoutCore, hOpen, if_true]
    exact sumDurations_eq_closedSum _ (breaksWF_closeFirstOpen _ _ hWF)
  · simp only [checkoutCore, hOpen, if_false]
    exact hTot

/-- C3: after every break-end, and after every check-out (which first
force-closes any still-open break at the check-out time), the stored
`totalBreakTime` equals the sum of `duration` over the closed breaks of
the day, for any number of closed breaks; check-in establishes this
invariant with an empty break list, and break-start preserves it, so it
holds in every reachable state. -/
theorem c3_totalBreakTime_invariant :
    (∀ ctx att r, breaksWF att.breaks → breakEnd ctx (some att) = .ok r →
        r.totalBreakTime = closedSum r.breaks) ∧
    (∀ ctx att r, breaksWF att.breaks → att.totalBreakTime = closedSum att.breaks →
        checkout ctx (some att) = .ok r → r.totalBreakTime = closedSum r.breaks) ∧
    (∀ ctx s r, checkin ctx s = .ok r → r.totalBreakTime = closedSum r.breaks) ∧
    (∀ ctx ty att r, att.totalBreakTime = closedSum att.breaks →
        breakStart ctx ty (some att) = .ok r →
        r.totalBreakTime = closedSum r.breaks) := by
  refine ⟨?_, ?_, ?_, ?_⟩
  · intro ctx att r hWF hOk
    simp only [breakEnd] at hOk
    split at hOk
    · rcases hOk with ⟨⟩
      exact sumDurations_eq_closedSum _ (breaksWF_closeFirstOpen _ _ hWF)
    · exact absurd hOk (by simp)
  · intro ctx att r hWF hTot hOk
    simp only [checkout] at hOk
    split at hOk
    · exact absurd hOk (by simp)
    · split at hOk
      · exact absurd hOk (by simp)
      · rcases hOk with ⟨⟩
        exact checkoutCore_totalBreak _ _ _ hWF hTot
  · intro ctx s r hOk
    simp only [checkin] at hOk
    split at hOk
    · cases s with
      | some att =>
        simp only at hOk
        split at hOk
        · exact absurd hOk (by simp)
        · rcases hOk with ⟨⟩
          simp [freshCheckin, closedSum]
      | none =>
        simp only at hOk
        rcases hOk with ⟨⟩
        simp [freshCheckin, closedSum]
    · exact absurd hOk (by simp)
  · intro ctx ty att r hTot hOk
    simp only [breakStart] at hOk
    split at hOk
    · exact absurd hOk (by simp)
    · split at hOk
      · exact absurd hOk (by simp)
      · split at hOk
        · exact absurd hOk (by simp)
        · rcases hOk with ⟨⟩
          simp only
          rw [closedSum_append_open _ _ rfl]
          exact hTot

/-- Concrete request context for exercising the break-end theorem. -/
def c3ctx : Ctx :=
  { nowMs := 61200000, shiftStart := none, shiftEnd := none
    isActive := true, workLocation := "dining" }

/-- Concrete day record with one closed thirty-minute break and one
still-open break. -/
def c3att : AttendanceDay :=
  { loginTime := some 33600000, logoutTime := none, isPresent := true
    status := Status.late, lateMinutes := 20, earlyLeaveMinutes := none
    workLocation := "dining"
    breaks := [⟨BreakType.lunch, 43200000, some 45000000, some 30⟩,
               ⟨BreakType.tea, 50000000, none, none⟩]
    totalBreakTime := 30, hoursWorked := none, overtimeHours := none }

theorem c3_totalBreakTime_invariant_witness :
    invariantAfter (breakEnd c3ctx (some c3att)) :=
  fun r hr => c3_totalBreakTime_invariant.1 c3ctx c3att r (by decide) hr

/-- Claim formula for worked hours at check-out:
`hoursWorked = ((now - loginTime)/60s - totalBreakMinutes)/60`, with
times in milliseconds and `totalBreakMinutes` in minutes. -/
def specHoursWorked (nowMs login totalBreakMinutes : ℤ) : ℚ :=
  (((nowMs - login : ℤ) : ℚ) / 60000 - (totalBreakMinutes : ℚ)) / 60

/-- Claim formula for the standard shift length in hours,
`(endMinutes - startMinutes) / 60`, with the `09:00`/`18:00` defaults. -/
def specStandardShiftHours (ctx : Ctx) : ℚ :=
  let s := ctx.shiftStart.getD (9, 0)
  let e := ctx.shiftEnd.getD (18, 0)
  (((e.1 * 60 + e.2) - (s.1 * 60 + s.2) : ℤ) : ℚ) / 60

/-- Claim formula `overtimeHours = max(0, hoursWorked - standardShiftHours)`. -/
def specOvertime (hw ssh : ℚ) : ℚ := max 0 (hw - ssh)

/-- Claim formula `earlyLeaveMinutes = max(0, floor((shiftEnd - now)/60s))`. -/
def specEarlyLeave (ctx : Ctx) : ℤ :=
  max 0 ⌊((shiftEndMs ctx - ctx.nowMs : ℤ) : ℚ) / 60000⌋

/-- Claim status precedence at check-out, first match wins: overtime,
then early-leave, then half-day, else the status set at check-in. -/
def specCheckoutStatus (ot : ℚ) (el : ℤ) (hw : ℚ) (prev : Status) : Status :=
  if 1/2 < ot then Status.overtime
  else if 30 < el then Status.earlyLeave
  else if hw < 4 then Status.halfDay
  else prev

/-- Claim-side worked hours of a check-out on a given record: the break
minutes are those of the closed breaks after the force-close. -/
def specHW (ctx : Ctx) (att : AttendanceDay) (login : ℤ) : ℚ :=
  specHoursWorked ctx.nowMs login (closedSum (closeFirstOpen ctx.nowMs att.breaks))

/-- Claim-side overtime hours of a check-out on a given record. -/
def specOT (ctx : Ctx) (att : AttendanceDay) (login : ℤ) : ℚ :=
  specOvertime (specHW ctx att login) (specStandardShiftHours ctx)

/-- C1: on every successful check-out, the stored `hoursWorked` and
`overtimeHours` are the claim's formulas rounded to two decimals, the
recorded early-leave minutes are `max(0, floor((shiftEnd - now)/60s))`,
and the stored status follows the claimed first-match precedence over
the unrounded values, keeping the check-in status otherwise.
`totalBreakMinutes` is the closed-break sum after the force-close. -/
theorem c1_checkout_computation (ctx : Ctx) (att : AttendanceDay) (login : ℤ)
    (hLogin : att.loginTime = some login)
    (hNoLogout : att.logoutTime = none)
    (hWF : breaksWF att.breaks)
    (hTot : att.totalBreakTime = closedSum att.breaks) :
    (okDay (checkout ctx (some att))).map (fun r => r.hoursWorked) =
      some (some (round2 (specHW ctx att login))) ∧
    (okDay (checkout ctx (some att))).map (fun r => r.overtimeHours) =
      some (some (round2 (specOT ctx att login))) ∧
    (okDay (checkout ctx (some att))).map (fun r => r.status) =
      some (specCheckoutStatus (specOT ctx att login) (specEarlyLeave ctx)
        (specHW ctx att login) att.status) ∧
    (okDay (checkout ctx (some att))).map (fun r => r.earlyLeaveMinutes) =
      some (if 1/2 < specOT ctx att login then att.earlyLeaveMinutes
            else if 30 < specEarlyLeave ctx then some (specEarlyLeave ctx)
            else att.earlyLeaveMinutes) := by
  have hred : checkout ctx (some att) = .ok (checkoutCore ctx att login) := by
    simp [checkout, hLogin, hNoLogout]
  by_cases hOpen : (att.breaks.find? fun b => b.endTime.isNone).isSome
  · have hSum : sumDurations (closeFirstOpen ctx.nowMs att.breaks) =
        closedSum (closeFirstOpen ctx.nowMs att.breaks) :=
      sumDurations_eq_closedSum _ (breaksWF_closeFirstOpen _ _ hWF)
    refine ⟨?_, ?_, ?_, ?_⟩ <;>
      simp [hred, okDay, checkoutCore, hOpen, hSum, specHW, specOT, specHoursWorked,
        specOvertime, specStandardShiftHours, specEarlyLeave, specCheckoutStatus,
        shiftEndMs]
  · have hid : closeFirstOpen ctx.nowMs att.breaks = att.breaks :=
      closeFirstOpen_of_no_open _ _ (Option.not_isSome_iff_eq_none.mp hOpen)
    refine ⟨?_, ?_, ?_, ?_⟩ <;>
      simp [hred, okDay, checkoutCore, hOpen, hid, hTot, specHW, specOT,
        specHoursWorked, specOvertime, specStandardShiftHours, specEarlyLeave,
        specCheckoutStatus, shiftEndMs]

/-- Concrete check-out request at 17:00 with the default shift. -/
def c1ctx : Ctx :=
  { nowMs := 61200000, shiftStart := none, shiftEnd := none
    isActive := true, workLocation := "dining" }

/-- Concrete day record checked in at 09:20 with one closed
thirty-minute lunch break. -/
def c1att : AttendanceDay :=
  { loginTime := some 33600000, logoutTime := none, isPresent := true
    status := Status.late, lateMinutes := 20, earlyLeaveMinutes := none
    workLocation := "dining"
    breaks := [⟨BreakType.lunch, 43200000, some 45000000, some 30⟩]
    totalBreakTime := 30, hoursWorked := none, overtimeHours := none }

theorem c1_checkout_computation_witness :
    (okDay (checkout c1ctx (some c1att))).map (fun r => r.hoursWorked) =
      some (some (round2 (specHW c1ctx c1att 33600000))) ∧
    (okDay (checkout c1ctx (some c1att))).map (fun r => r.overtimeHours) =
      some (some (round2 (specOT c1ctx c1att 33600000))) ∧
    (okDay (checkout c1ctx (some c1att))).map (fun r => r.status) =
      some (specCheckoutStatus (specOT c1ctx c1att 33600000) (specEarlyLeave c1ctx)
        (specHW c1ctx c1att 33600000) c1att.status) ∧
    (okDay (checkout c1ctx (some c1att))).map (fun r => r.earlyLeaveMinutes) =
      some (if 1/2 < specOT c1ctx c1att 33600000 then c1att.earlyLeaveMinutes
            else if 30 < specEarlyLeave c1ctx then some (specEarlyLeave c1ctx)
            else c1att.earlyLeaveMinutes) :=
  c1_checkout_computation c1ctx c1att 33600000 rfl rfl (by decide) (by decide)

theorem freshCheckin_late_spec (ctx : Ctx) (prev : Option AttendanceDay) :
    (freshCheckin ctx prev).lateMinutes =
      max 0 ⌊((ctx.nowMs - hmToMs (ctx.shiftStart.getD (9, 0)) : ℤ) : ℚ) / 60000⌋ ∧
    ((freshCheckin ctx prev).status = Status.late ↔
      15 < (freshCheckin ctx prev).lateMinutes) ∧
    ((freshCheckin ctx prev).status = Status.present ↔
      (freshCheckin ctx prev).lateMinutes ≤ 15) := by
  refine ⟨rfl, ?_, ?_⟩ <;>
    · simp only [freshCheckin, shiftStartMs]
      by_cases h : (15 : ℤ) <
          max 0 ⌊((ctx.nowMs - hmToMs (ctx.shiftStart.getD (9, 0)) : ℤ) : ℚ) / 60000⌋ <;>
        simp [h, le_of_not_lt, not_le]

/-- C2: every successful check-in stores
`lateMinutes = max(0, floor((now - shiftStart)/60s))` with the shift
start defaulting to 09:00 when unset, and stores status `late` exactly
when `lateMinutes > 15`, `present` otherwise. -/
theorem c2_checkin_late_status (ctx : Ctx) (s : Option AttendanceDay) (r : AttendanceDay)
    (hOk : checkin ctx s = .ok r) :
    r.lateMinutes =
      max 0 ⌊((ctx.nowMs - hmToMs (ctx.shiftStart.getD (9, 0)) : ℤ) : ℚ) / 60000⌋ ∧
    (r.status = Status.late ↔ 15 < r.lateMinutes) ∧
    (r.status = Status.present ↔ r.lateMinutes ≤ 15) := by
  simp only [checkin] at hOk
  split at hOk
  · cases s with
    | some att =>
      simp only at hOk
      split at hOk
      · exact absurd hOk (by simp)
      · rcases hOk with ⟨⟩
        exact freshCheckin_late_spec ctx (some att)
    | none =>
      simp only at hOk
      rcases hOk with ⟨⟩
      exact freshCheckin_late_spec ctx none
  · exact absurd hOk (by simp)

/-- Concrete check-in request at 09:20 with the default shift start. -/
def c2ctx : Ctx :=
  { nowMs := 33600000, shiftStart := none, shiftEnd := none
    isActive := true, workLocation := "dining" }

theorem c2_checkin_late_status_witness :
    (freshCheckin c2ctx none).lateMinutes =
      max 0 ⌊((c2ctx.nowMs - hmToMs (c2ctx.shiftStart.getD (9, 0)) : ℤ) : ℚ) / 60000⌋ ∧
    ((freshCheckin c2ctx none).status = Status.late ↔
      15 < (freshCheckin c2ctx none).lateMinutes) ∧
    ((freshCheckin c2ctx none).status = Status.present ↔
      (freshCheckin c2ctx none).lateMinutes ≤ 15) :=
  c2_checkin_late_status c2ctx none (freshCheckin c2ctx none) rfl

/-- C6: a successful check-in stores `loginTime`, and any further
check-in on a record whose `loginTime` is set (and an active employee)
is rejected with `AlreadyCheckedIn`, leaving the stored record
unchanged; hence check-in succeeds exactly once per day without an
intervening mechanism clearing `loginTime`. -/
theorem c6_double_checkin_rejected :
    (∀ ctx s r, checkin ctx s = .ok r → r.loginTime = some ctx.nowMs) ∧
    (∀ ctx att, ctx.isActive = true → att.loginTime.isSome →
        checkin ctx (some att) = .error .alreadyCheckedIn ∧
        applyOp (checkin ctx (some att)) (some att) = some att) := by
  constructor
  · intro ctx s r hOk
    simp only [checkin] at hOk
    split at hOk
    · cases s with
      | some att =>
        simp only at hOk
        split at hOk
        · exact absurd hOk (by simp)
        · rcases hOk with ⟨⟩; rfl
      | none =>
        simp only at hOk
        rcases hOk with ⟨⟩; rfl
    · exact absurd hOk (by simp)
  · intro ctx att hA hL
    have h1 : checkin ctx (some att) = .error .alreadyCheckedIn := by
      simp [checkin, hA, hL]
    exact ⟨h1, by simp [applyOp, h1]⟩

/-- Concrete already-checked-in record for the double check-in claim. -/
def c6att : AttendanceDay :=
  { loginTime := some 33600000, logoutTime := none, isPresent := true
    status := Status.present, lateMinutes := 0, earlyLeaveMinutes := none
    workLocation := "kitchen", breaks := [], totalBreakTime := 0
    hoursWorked := none, overtimeHours := none }

theorem c6_double_checkin_rejected_witness :
    (freshCheckin c2ctx none).loginTime = some c2ctx.nowMs ∧
    (checkin c2ctx (some c6att) = .error .alreadyCheckedIn ∧
      applyOp (checkin c2ctx (some c6att)) (some c6att) = some c6att) :=
  ⟨c6_double_checkin_rejected.1 c2ctx none (freshCheckin c2ctx none) rfl,
   c6_double_checkin_rejected.2 c2ctx c6att rfl rfl⟩

/-- C7 (amended): each guarded transition fails with its named error
when its guard is violated and every failing call leaves the stored
record unchanged; break-end reports `NoOpenBreak` when a day record
exists without an open break, while with no day record at all it fails
with the distinct record-not-found error. -/
theorem c7_guard_errors :
    (∀ ctx, checkout ctx none = .error .notCheckedIn) ∧
    (∀ ctx att, att.loginTime = none →
        checkout ctx (some att) = .error .notCheckedIn) ∧
    (∀ ctx att login, att.loginTime = some login → att.logoutTime.isSome →
        checkout ctx (some att) = .error .alreadyCheckedOut) ∧
    (∀ ctx ty att login, att.loginTime = some login → att.logoutTime = none →
        (att.breaks.find? fun b => b.endTime.isNone).isSome →
        breakStart ctx ty (some att) = .error .breakInProgress) ∧
    (∀ ctx att, (att.breaks.find? fun b => b.endTime.isNone) = none →
        breakEnd ctx (some att) = .error .noOngoingBreak) ∧
    (∀ ctx, breakEnd ctx none = .error .noAttendanceRecord) ∧
    (∀ ctx s e, checkout ctx s = .error e → applyOp (checkout ctx s) s = s) ∧
    (∀ ctx ty s e, breakStart ctx ty s = .error e →
        applyOp (breakStart ctx ty s) s = s) ∧
    (∀ ctx s e, breakEnd ctx s = .error e → applyOp (breakEnd ctx s) s = s) := by
  refine ⟨fun ctx => rfl, ?_, ?_, ?_, ?_, fun ctx => rfl, ?_, ?_, ?_⟩
  · intro ctx att h
    simp [checkout, h]
  · intro ctx att login h1 h2
    simp [checkout, h1, h2]
  · intro ctx ty att login h1 h2 h3
    simp [breakStart, h1, h2, h3]
  · intro ctx att h
    simp [breakEnd, h]
  · intro ctx s e h
    simp [applyOp, h]
  · intro ctx ty s e h
    simp [applyOp, h]
  · intro ctx s e h
    simp [applyOp, h]

/-- Concrete context for the guard-error claims. -/
def c7ctx : Ctx :=
  { nowMs := 61200000, shiftStart := none, shiftEnd := none
    isActive := true, workLocation := "dining" }

/-- Concrete record already checked out, with no open break. -/
def c7att : AttendanceDay :=
  { loginTime := some 33600000, logoutTime := some 61200000, isPresent := true
    status := Status.present, lateMinutes := 0, earlyLeaveMinutes := none
    workLocation := "dining", breaks := [], totalBreakTime := 0
    hoursWorked := some 6, overtimeHours := some 0 }

theorem c7_guard_errors_witness :
    checkout c7ctx (some c7att) = .error .alreadyCheckedOut ∧
    breakEnd c7ctx (some c7att) = .error .noOngoingBreak :=
  ⟨c7_guard_errors.2.2.1 c7ctx c7att 33600000 rfl rfl,
   c7_guard_errors.2.2.2.2.1 c7ctx c7att rfl⟩

/-- C7 counterexample: ending a break when no day record exists for
today — so in particular no break is open — yields the record-not-found
error, not `NoOpenBreak` as the claim states. -/
theorem c7_counterexample :
    breakEnd c7ctx none = .error .noAttendanceRecord ∧
    Err.noAttendanceRecord ≠ Err.noOngoingBreak :=
  ⟨rfl, by decide⟩

/-- Concrete check-in request for the re-check-in claim. -/
def c8ctx : Ctx :=
  { nowMs := 36000000, shiftStart := none, shiftEnd := none
    isActive := true, workLocation := "dining" }

/-- Concrete open day record: checked in, not yet checked out. -/
def c8att : AttendanceDay :=
  { loginTime := some 33600000, logoutTime := none, isPresent := true
    status := Status.present, lateMinutes := 0, earlyLeaveMinutes := none
    workLocation := "dining", breaks := [], totalBreakTime := 0
    hoursWorked := none, overtimeHours := none }

/-- C8 counterexample: a second check-in on the same day issued before
any check-out (the record has `loginTime` set and `logoutTime` absent,
and the employee is active) is rejected with `AlreadyCheckedIn`; it does
not succeed, so the prior open record is never overwritten. -/
theorem c8_counterexample :
    c8att.logoutTime = none ∧
    checkin c8ctx (some c8att) = .error .alreadyCheckedIn :=
  ⟨rfl, rfl⟩

/-- C8 (amended): check-in overwrites an existing day record only when
that record has no `loginTime`, succeeding with a fresh `loginTime`,
`status`, `lateMinutes` and an empty break list; whenever `loginTime` is
already set — in particular before any check-out — the repeated
check-in is rejected with `AlreadyCheckedIn` instead of overwriting. -/
theorem c8_overwrite_only_without_login :
    (∀ ctx att, ctx.isActive = true → att.loginTime = none →
        checkin ctx (some att) = .ok (freshCheckin ctx (some att)) ∧
        (freshCheckin ctx (some att)).loginTime = some ctx.nowMs ∧
        (freshCheckin ctx (some att)).breaks = [] ∧
        (freshCheckin ctx (some att)).totalBreakTime = 0 ∧
        (freshCheckin ctx (some att)).lateMinutes =
          max 0 ⌊((ctx.nowMs - shiftStartMs ctx : ℤ) : ℚ) / 60000⌋) ∧
    (∀ ctx att, ctx.isActive = true → att.loginTime.isSome →
        checkin ctx (some att) = .error .alreadyCheckedIn) := by
  constructor
  · intro ctx att hA hL
    refine ⟨?_, rfl, rfl, rfl, rfl⟩
    simp [checkin, hA, hL]
  · intro ctx att hA hL
    simp [checkin, hA, hL]

/-- Concrete day record for today with no `loginTime` (the only shape
check-in overwrites). -/
def c8attNoLogin : AttendanceDay :=
  { loginTime := none, logoutTime := none, isPresent := false
    status := Status.absent, lateMinutes := 0, earlyLeaveMinutes := none
    workLocation := "dining", breaks := [], totalBreakTime := 0
    hoursWorked := none, overtimeHours := none }

theorem c8_overwrite_only_without_login_witness :
    (checkin c8ctx (some c8attNoLogin) = .ok (freshCheckin c8ctx (some c8attNoLogin)) ∧
      (freshCheckin c8ctx (some c8attNoLogin)).loginTime = some c8ctx.nowMs ∧
      (freshCheckin c8ctx (some c8attNoLogin)).breaks = [] ∧
      (freshCheckin c8ctx (some c8attNoLogin)).totalBreakTime = 0 ∧
      (freshCheckin c8ctx (some c8attNoLogin)).lateMinutes =
        max 0 ⌊((c8ctx.nowMs - shiftStartMs c8ctx : ℤ) : ℚ) / 60000⌋) ∧
    checkin c8ctx (some c8att) = .error .alreadyCheckedIn :=
  ⟨c8_overwrite_only_without_login.1 c8ctx c8attNoLogin rfl rfl,
   c8_overwrite_only_without_login.2 c8ctx c8att rfl rfl⟩

/-- C10: none of check-out, break-start and break-end ever produces the
inactive-employee error, and for an inactive employee with an open
record for today check-out succeeds and stores `logoutTime`, break-start
succeeds when no break is open, and break-end succeeds when a break is
open. -/
theorem c10_no_inactive_guard :
    (∀ ctx s, checkout ctx s ≠ .error .inactiveEmployee) ∧
    (∀ ctx ty s, breakStart ctx ty s ≠ .error .inactiveEmployee) ∧
    (∀ ctx s, breakEnd ctx s ≠ .error .inactiveEmployee) ∧
    (∀ ctx att login, ctx.isActive = false → att.loginTime = some login →
        att.logoutTime = none →
        checkout ctx (some att) = .ok (checkoutCore ctx att login) ∧
        (checkoutCore ctx att login).logoutTime = some ctx.nowMs ∧
        (∀ ty, (att.breaks.find? fun b => b.endTime.isNone) = none →
          (okDay (breakStart ctx ty (some att))).isSome) ∧
        ((att.breaks.find? fun b => b.endTime.isNone).isSome →
          (okDay (breakEnd ctx (some att))).isSome)) := by
  refine ⟨?_, ?_, ?_, ?_⟩
  · intro ctx s h
    cases s with
    | none => simp [checkout] at h
    | some att =>
      simp only [checkout] at h
      split at h
      · simp at h
      · split at h <;> simp at h
  · intro ctx ty s h
    cases s with
    | none => simp [breakStart] at h
    | some att =>
      simp only [breakStart] at h
      split at h
      · simp at h
      · split at h
        · simp at h
        · split at h <;> simp at h
  · intro ctx s h
    cases s with
    | none => simp [breakEnd] at h
    | some att =>
      simp only [breakEnd] at h
      split at h <;> simp at h
  · intro ctx att login hInactive hLogin hLogout
    refine ⟨by simp [checkout, hLogin, hLogout], rfl, ?_, ?_⟩
    · intro ty hNoOpen
      simp [breakStart, hLogin, hLogout, hNoOpen, okDay]
    · intro hOpen
      simp [breakEnd, hOpen, okDay]

/-- Concrete deactivated-employee context. -/
def c10ctx : Ctx :=
  { nowMs := 61200000, shiftStart := none, shiftEnd := none
    isActive := false, workLocation := "dining" }

/-- Concrete open record with no open break, for the inactive employee. -/
def c10att : AttendanceDay :=
  { loginTime := some 33600000, logoutTime := none, isPresent := true
    status := Status.present, lateMinutes := 0, earlyLeaveMinutes := none
    workLocation := "dining", breaks := [], totalBreakTime := 0
    hoursWorked := none, overtimeHours := none }

/-- Concrete open record with one open break, for the inactive employee. -/
def c10attOpen : AttendanceDay :=
  { loginTime := some 33600000, logoutTime := none, isPresent := true
    status := Status.present, lateMinutes := 0, earlyLeaveMinutes := none
    workLocation := "dining", breaks := [⟨BreakType.tea, 50000000, none, none⟩]
    totalBreakTime := 0, hoursWorked := none, overtimeHours := none }

theorem c10_no_inactive_guard_witness :
    (checkout c10ctx (some c10att) = .ok (checkoutCore c10ctx c10att 33600000) ∧
      (checkoutCore c10ctx c10att 33600000).logoutTime = some c10ctx.nowMs ∧
      (okDay (breakStart c10ctx BreakType.lunch (some c10att))).isSome) ∧
    (okDay (breakEnd c10ctx (some c10attOpen))).isSome :=
  ⟨⟨(c10_no_inactive_guard.2.2.2 c10ctx c10att 33600000 rfl rfl rfl).1,
    (c10_no_inactive_guard.2.2.2 c10ctx c10att 33600000 rfl rfl rfl).2.1,
    (c10_no_inactive_guard.2.2.2 c10ctx c10att 33600000 rfl rfl rfl).2.2.1
      BreakType.lunch rfl⟩,
   (c10_no_inactive_guard.2.2.2 c10ctx c10attOpen 33600000 rfl rfl rfl).2.2.2 rfl⟩

/-- Present day record with a given worked-hours figure. -/
def mkPresentDay (hw : ℚ) (st : Status) : AttendanceDay :=
  { loginTime := some 33600000, logoutTime := some 61200000, isPresent := true
    status := st, lateMinutes := 0, earlyLeaveMinutes := none
    workLocation := "dining", breaks := [], totalBreakTime := 0
    hoursWorked := some hw, overtimeHours := some 0 }

/-- Three present day records totalling ten worked hours. -/
def c4ex : List AttendanceDay :=
  [mkPresentDay 4 Status.present, mkPresentDay 3 Status.present,
   mkPresentDay 3 Status.present]

/-- C4 counterexample: over three present days with 4 + 3 + 3 = 10 hours
the code stores `averageHours = Math.round((10/3)*100)/100 = 3.33`,
which differs from the claim's unrounded `totalHours / presentDays`. -/
theorem c4_counterexample :
    averageHoursOf c4ex ≠ totalHoursOf c4ex / (presentDaysOf c4ex : ℚ) := by
  have hp : presentDaysOf c4ex = 3 := rfl
  have ht : totalHoursOf c4ex = 10 := by
    simp [totalHoursOf, c4ex, mkPresentDay]
    norm_num
  simp only [averageHoursOf, hp, ht]
  norm_num [round2, jsRound]

/-- Records making the punctuality score negative: one present-and-late
day plus a not-present day also marked late. -/
def c4neg : List AttendanceDay :=
  [mkPresentDay 8 Status.late,
   { loginTime := none, logoutTime := none, isPresent := false
     status := Status.late, lateMinutes := 0, earlyLeaveMinutes := none
     workLocation := "dining", breaks := [], totalBreakTime := 0
     hoursWorked := none, overtimeHours := none }]

/-- C4 (amended): for every set of day records,
`attendancePercentage = round(present/(present+absent)*100)` with 0 on a
zero denominator, `punctualityScore = round((present-late-early)/present*100)`
with 0 when there are no present days and no clamping below zero (it is
negative on a concrete input), and `averageHours` is
`totalHours/presentDays` rounded to two decimal places (the rounding is
the one deviation from the claim) with 0 when there are no present days;
aggregating an empty period yields 0, 0 and 0 without a division
fault. -/
theorem c4_aggregation (l : List AttendanceDay) :
    attendancePercentageOf l =
      (if 0 < presentDaysOf l + absentDaysOf l then
        jsRound ((presentDaysOf l : ℚ) /
          ((presentDaysOf l + absentDaysOf l : ℕ) : ℚ) * 100)
      else 0) ∧
    punctualityScoreOf l =
      (if 0 < presentDaysOf l then
        jsRound ((((presentDaysOf l : ℤ) - lateCountOf l - earlyLeaveCountOf l : ℤ) : ℚ) /
          ((presentDaysOf l : ℕ) : ℚ) * 100)
      else 0) ∧
    averageHoursOf l =
      (if 0 < presentDaysOf l then
        round2 (totalHoursOf l / ((presentDaysOf l : ℕ) : ℚ))
      else 0) ∧
    punctualityScoreOf c4neg < 0 ∧
    attendancePercentageOf [] = 0 ∧
    punctualityScoreOf [] = 0 ∧
    averageHoursOf [] = 0 := by
  refine ⟨rfl, rfl, rfl, ?_, rfl, rfl, rfl⟩
  have hp : presentDaysOf c4neg = 1 := rfl
  have hl : lateCountOf c4neg = 2 := rfl
  have he : earlyLeaveCountOf c4neg = 0 := rfl
  simp only [punctualityScoreOf, hp, hl, he]
  norm_num [jsRound]

/-- C5: the payslip's fixed allowances are 1000/500/300, the
performance allowance is 2000 exactly when the month's attendance
percentage is at least 95 and 0 otherwise, the statutory deductions are
`pf = round(basic*0.12)`, `esi = round(basic*0.0175)`, `tax = 0` and
`advance = salary.deductions`, and
`netSalary = grossEarnings - totalDeductions` with `grossEarnings` the
gross salary plus the total allowances. -/
theorem c5_payslip (sd : SalaryData) (pct : ℤ) (ded : Option ℚ) :
    (buildPayslip sd pct ded).allowTransport = 1000 ∧
    (buildPayslip sd pct ded).allowMeal = 500 ∧
    (buildPayslip sd pct ded).allowMobile = 300 ∧
    ((buildPayslip sd pct ded).allowPerformance = if 95 ≤ pct then 2000 else 0) ∧
    ((buildPayslip sd pct ded).allowPerformance = 2000 ↔ 95 ≤ pct) ∧
    (buildPayslip sd pct ded).totalAllowances =
      1000 + 500 + 300 + (buildPayslip sd pct ded).allowPerformance ∧
    (buildPayslip sd pct ded).pf =
      (jsRound ((buildPayslip sd pct ded).basicSalary * (12/100)) : ℚ) ∧
    (buildPayslip sd pct ded).esi =
      (jsRound ((buildPayslip sd pct ded).basicSalary * (175/10000)) : ℚ) ∧
    (buildPayslip sd pct ded).tax = 0 ∧
    (buildPayslip sd pct ded).advance = jsOrQ ded 0 ∧
    (buildPayslip sd pct ded).totalDeductions =
      (buildPayslip sd pct ded).pf + (buildPayslip sd pct ded).esi +
        (buildPayslip sd pct ded).tax + (buildPayslip sd pct ded).advance ∧
    (buildPayslip sd pct ded).grossEarnings =
      jsOrQ sd.grossSalary 0 + (buildPayslip sd pct ded).totalAllowances ∧
    (buildPayslip sd pct ded).netSalary =
      (buildPayslip sd pct ded).grossEarnings -
        (buildPayslip sd pct ded).totalDeductions := by
  refine ⟨rfl, rfl, rfl, rfl, ?_, ?_, rfl, rfl, rfl, rfl, ?_, rfl, rfl⟩
  · by_cases h : 95 ≤ pct <;> simp [buildPayslip, h]
  · simp [buildPayslip]
  · simp [buildPayslip]

/-- Dashboard metric with high attendance but zero punctuality. -/
def c9A : EmpMetric := { attendancePercentage := 90, punctualityScore := 0, totalHours := 0 }

/-- Dashboard metric with lower attendance but full punctuality. -/
def c9B : EmpMetric := { attendancePercentage := 80, punctualityScore := 100, totalHours := 0 }

/-- C9 counterexample: on the two metrics (att 90, punct 0) and
(att 80, punct 100) the dashboard list comes out as scores [63, 86] —
ranked by attendance percentage, not in descending order of the named
performance score as the claim states. -/
theorem c9_counterexample :
    ¬ ((dashboardTop [c9A, c9B]).map Prod.snd).Sorted (· ≥ ·) := by
  have hAB : byAttendanceDesc c9A c9B := by
    show c9B.attendancePercentage ≤ c9A.attendancePercentage
    norm_num [c9A, c9B]
  have hsort : List.insertionSort byAttendanceDesc [c9A, c9B] = [c9A, c9B] := by
    simp [List.insertionSort, List.orderedInsert, hAB]
  have hmap : (dashboardTop [c9A, c9B]).map Prod.snd = [dashScore c9A, dashScore c9B] := by
    simp [dashboardTop, hsort, hAB]
  rw [hmap]
  intro hs
  have h1 : dashScore c9A ≥ dashScore c9B :=
    List.rel_of_sorted_cons hs _ (List.mem_singleton.mpr rfl)
  have hA : dashScore c9A = 63 := by
    simp only [dashScore, c9A]
    norm_num [round2, jsRound]
  have hB : dashScore c9B = 86 := by
    simp only [dashScore, c9B]
    norm_num [round2, jsRound]
  rw [hA, hB] at h1
  norm_num at h1

/-- C9 (amended): the comprehensive-report list is the top ten by the
named report score — the first ten of a descending sort of the scored
employees, that sort being a permutation of them — while the dashboard
list is the top five ranked by attendance percentage descending, each
entry merely annotated with the dashboard score
`0.7*attendance + 0.3*punctuality`, which is not its sort key. -/
theorem c9_rankings (ms : List EmpMetric) :
    reportTop ms = (List.insertionSort byScoreDesc (reportScored ms)).take 10 ∧
    (List.insertionSort byScoreDesc (reportScored ms)).Perm (reportScored ms) ∧
    ((reportTop ms).map Prod.snd).Sorted (· ≥ ·) ∧
    (dashboardTop ms).map Prod.fst = (List.insertionSort byAttendanceDesc ms).take 5 ∧
    ((dashboardTop ms).map fun p => p.1.attendancePercentage).Sorted (· ≥ ·) ∧
    (dashboardTop ms).map Prod.snd =
      ((List.insertionSort byAttendanceDesc ms).take 5).map dashScore := by
  have hfst : (Prod.fst ∘ fun m : EmpMetric => (m, dashScore m)) =
      (id : EmpMetric → EmpMetric) := rfl
  have hsnd : (Prod.snd ∘ fun m : EmpMetric => (m, dashScore m)) = dashScore := rfl
  refine ⟨rfl, List.perm_insertionSort _ _, ?_, ?_, ?_, ?_⟩
  · have hs : (reportTop ms).Pairwise byScoreDesc :=
      ((List.sorted_insertionSort byScoreDesc (reportScored ms)).sublist
        (List.take_sublist _ _))
    exact hs.map Prod.snd fun a b h => h
  · simp [dashboardTop, List.map_map, hfst]
  · have hs : ((List.insertionSort byAttendanceDesc ms).take 5).Pairwise byAttendanceDesc :=
      ((List.sorted_insertionSort byAttendanceDesc ms).sublist (List.take_sublist _ _))
    have hm : (((List.insertionSort byAttendanceDesc ms).take 5).map
        (fun m : EmpMetric => m.attendancePercentage)).Pairwise (· ≥ ·) :=
      hs.map (fun m : EmpMetric => m.attendancePercentage) (fun a b h => h)
    have hcomp : ((fun p : EmpMetric × ℚ => p.1.attendancePercentage) ∘
        fun m : EmpMetric => (m, dashScore m)) =
        fun m : EmpMetric => m.attendancePercentage := rfl
    simpa [dashboardTop, List.map_map, hcomp] using hm
  · simp [dashboardTop, List.map_map, hsnd]

end Billing
